import Mathlib

/-!
Shallow embedding of the access-control core of the sync_backend repository.

User ids (Mongo ObjectIds) are modelled as `Nat`; the source compares them
via `toString()` equality, which on ids is plain equality. Enumerated string
fields (`security`, `permission`, `authProvider`) are kept as `String`,
exactly as the source stores and compares them. A thrown `CustomError` is
modelled as the `Except.error` branch carrying the same message and status
code. Store reads (`Board.findById`) are modelled by passing the lookup
result (`Option Board`) to the service; a successful `save()` is modelled by
returning the updated document, and a throw before `save()` leaves the
stored document unchanged (`boardAfterAdd` / `boardAfterDelete` below).
-/

namespace SyncBackend

/-- Embedding of `CustomError` (src/utils/customError.ts): a message plus an
HTTP status code. -/
structure CustomError where
  message : String
  statusCode : Nat
deriving DecidableEq, Repr

instance {ε α : Type} [DecidableEq ε] [DecidableEq α] : DecidableEq (Except ε α) :=
  fun x y =>
    match x, y with
    | Except.error e, Except.error f =>
      if h : e = f then isTrue (by rw [h])
      else isFalse (fun hc => h (Except.error.inj hc))
    | Except.ok a, Except.ok b =>
      if h : a = b then isTrue (by rw [h])
      else isFalse (fun hc => h (Except.ok.inj hc))
    | Except.error _, Except.ok _ => isFalse (fun hc => Except.noConfusion hc)
    | Except.ok _, Except.error _ => isFalse (fun hc => Except.noConfusion hc)

/-- One entry of a board's `collaborators` array (src/models/boardModel.ts):
a user id together with a permission string ("edit" or "view"). -/
structure Collaborator where
  user : Nat
  permission : String
deriving DecidableEq, Repr

/-- Embedding of a stored board document, per the final `BoardSchema` in
src/models/boardModel.ts: name, createdBy, collaborators, shapes (opaque,
uninterpreted here), thumbnail_img, security ("public" or "private").
`id` is the store-assigned `_id`. -/
structure Board where
  id : Nat
  name : String
  createdBy : Nat
  collaborators : List Collaborator
  shapes : List String
  thumbnail_img : String
  security : String
deriving DecidableEq, Repr

/-- The user ids appearing in a board's collaborator list, in order. -/
def collabUsers (b : Board) : List Nat :=
  b.collaborators.map (fun c => c.user)

/-- Embedding of `BoardCRDServices.checkIfowner`
(src/services/boardServices/cRDServices.ts): true iff the current user is
the board's `createdBy`. -/
def checkIfowner (board : Board) (currentUserId : Nat) : Bool :=
  board.createdBy == currentUserId

/-- Embedding of `BoardCRDServices.addCollaboratorService`
(src/services/boardServices/cRDServices.ts, lines 346-397). The first
argument is the result of `Board.findById(data.boardId)`. On success the
updated board (with the new collaborator pushed at the end) is saved and
returned here. -/
def addCollaboratorService (board : Option Board)
    (currentUserId targetUserId : Nat) (permission : String) :
    Except CustomError Board :=
  match board with
  | none => Except.error ⟨"No board corresponding to the id found", 404⟩
  | some b =>
    let isOwner := checkIfowner b currentUserId
    if !isOwner then
      Except.error ⟨"Only owner can add new collaborators !", 403⟩
    else
      let collaboratorExists :=
        b.collaborators.any (fun collab => collab.user == targetUserId)
      if collaboratorExists then
        Except.error ⟨"This user is already a collaborator", 400⟩
      else
        Except.ok { b with collaborators := b.collaborators ++ [⟨targetUserId, permission⟩] }

/-- Embedding of `BoardCRDServices.deleteCollaboratorService`
(src/services/boardServices/cRDServices.ts, lines 420-463). `findIndex`
followed by `splice(index, 1)` is `findIdx?` followed by `eraseIdx`. -/
def deleteCollaboratorService (board : Option Board)
    (currentUserId targetUserId : Nat) :
    Except CustomError Board :=
  match board with
  | none => Except.error ⟨"No board corresponding to the id found", 404⟩
  | some b =>
    let isOwner := checkIfowner b currentUserId
    if !isOwner then
      Except.error ⟨"Only owner can add remove collaborators !", 403⟩
    else
      match b.collaborators.findIdx? (fun collab => collab.user == targetUserId) with
      | none => Except.error ⟨"User is not a collaborator", 404⟩
      | some index =>
        Except.ok { b with collaborators := b.collaborators.eraseIdx index }

/-- The stored board after an `addCollaboratorService` call: the saved
document on success; unchanged when the service throws, since every throw
happens before `board.save()`. -/
def boardAfterAdd (b : Board) (currentUserId targetUserId : Nat)
    (permission : String) : Board :=
  match addCollaboratorService (some b) currentUserId targetUserId permission with
  | Except.ok b2 => b2
  | Except.error _ => b

/-- The stored board after a `deleteCollaboratorService` call: the saved
document on success; unchanged when the service throws. -/
def boardAfterDelete (b : Board) (currentUserId targetUserId : Nat) : Board :=
  match deleteCollaboratorService (some b) currentUserId targetUserId with
  | Except.ok b2 => b2
  | Except.error _ => b

/-- Duplicate-key (Mongo error 11000) test for `Board.create`: the final
`BoardSchema` in src/models/boardModel.ts declares no unique index at all
(in particular none on the (createdBy, name) pair), so a duplicate-key
error can only arise from the implicit unique `_id` index. -/
def boardDuplicateKey (store : List Board) (newId : Nat) : Bool :=
  store.any (fun x => x.id == newId)

/-- Embedding of `BoardCRDServices.createBoardService`
(src/services/boardServices/cRDServices.ts, lines 100-140). `newId` is the
store-assigned `_id` of the new document. The initial collaborator list is
copied over unvalidated (`collaborators?.map(...) || []`); `security ||
"private"` defaults only a falsy (empty) string. On a duplicate-key error
from the store the service throws status 400 with a duplicate-name message;
otherwise the new board is inserted and returned. -/
def createBoardService (store : List Board) (newId : Nat) (name : String)
    (security : String) (owner : Nat) (collaborators : Option (List Collaborator)) :
    Except CustomError (List Board × Board) :=
  let newBoard : Board :=
    { id := newId
      name := name
      createdBy := owner
      collaborators := (collaborators.map (fun l => l.map (fun collab => (⟨collab.user, collab.permission⟩ : Collaborator)))).getD []
      shapes := []
      thumbnail_img := ""
      security := if security == "" then "private" else security }
  if boardDuplicateKey store newId then
    Except.error ⟨"A board with the name " ++ name ++ " already exists for this user.", 400⟩
  else
    Except.ok (store ++ [newBoard], newBoard)

/-- The status code carried by a service outcome: `some code` when the call
threw a `CustomError`, `none` on success. -/
def statusOf {α : Type} (r : Except CustomError α) : Option Nat :=
  match r with
  | Except.error e => some e.statusCode
  | Except.ok _ => none

/-- The Conflict status code of the repository's own error taxonomy
(`errorConstants.CONFLICT` in the error-constants source file): 409. -/
def conflictStatusCode : Nat := 409

/-- A collaborator-list mutation performed through the service layer, used
to describe every board the add/remove operations can ever produce: the
acting user, the target user, and (for add) the permission string. -/
inductive BoardOp where
  | add : Nat → Nat → String → BoardOp
  | remove : Nat → Nat → BoardOp
deriving DecidableEq, Repr

/-- The stored board after one service call (unchanged when the call threw). -/
def applyOp (b : Board) (op : BoardOp) : Board :=
  match op with
  | BoardOp.add cu tu p => boardAfterAdd b cu tu p
  | BoardOp.remove cu tu => boardAfterDelete b cu tu

/-- The stored board after a sequence of service calls. -/
def applyOps (b : Board) (ops : List BoardOp) : Board :=
  ops.foldl applyOp b

/-- First collaborator-list invariant of the spec: a given user id appears
in `collaborators` at most once. -/
def noDuplicateCollaborators (b : Board) : Prop :=
  (collabUsers b).Nodup

/-- Second collaborator-list invariant of the spec: the owner is never also
listed in `collaborators`. -/
def ownerNotCollaborator (b : Board) : Prop :=
  b.createdBy ∉ collabUsers b

instance (b : Board) : Decidable (noDuplicateCollaborators b) := by
  unfold noDuplicateCollaborators; infer_instance

instance (b : Board) : Decidable (ownerNotCollaborator b) := by
  unfold ownerNotCollaborator; infer_instance

/-- Embedding of a stored user document per `UserSchema`
(src/models/userModel.ts): optional username and password hash, email,
authProvider ("local", "google" or "github"), optional firebaseUid. `v` is
the mongoose version key `__v` carried by every stored document. -/
structure User where
  id : Nat
  username : Option String
  email : String
  password : Option String
  authProvider : String
  firebaseUid : Option String
  v : Nat
deriving DecidableEq, Repr

/-- The plain object produced by `this.toObject()` inside
`UserSchema.methods.toJSON` (src/models/userModel.ts): every stored field,
the password hash and the version key included. -/
structure UserObject where
  id : Nat
  username : Option String
  email : String
  password : Option String
  authProvider : String
  firebaseUid : Option String
  v : Option Nat
deriving DecidableEq, Repr

/-- The serialized user after `delete obj.password; delete obj.__v`: what a
JSON response built from a User document actually carries. -/
structure UserJSON where
  id : Nat
  username : Option String
  email : String
  authProvider : String
  firebaseUid : Option String
deriving DecidableEq, Repr

/-- `this.toObject()`: the raw stored document as a plain object. -/
def User.toObject (u : User) : UserObject :=
  ⟨u.id, u.username, u.email, u.password, u.authProvider, u.firebaseUid, some u.v⟩

/-- The two `delete` statements of `UserSchema.methods.toJSON`: the
password and `__v` fields are removed from the object. -/
def UserObject.deletePasswordAndVersion (o : UserObject) : UserJSON :=
  ⟨o.id, o.username, o.email, o.authProvider, o.firebaseUid⟩

/-- Embedding of `UserSchema.methods.toJSON` (src/models/userModel.ts,
lines 31-36): serialize via `toObject`, then delete `password` and `__v`. -/
def User.toJSON (u : User) : UserJSON :=
  (u.toObject).deletePasswordAndVersion

/-- The payload handed to `generateToken` by `userLoginService`: the token
issuer itself is an external collaborator, so the token is modelled by the
identity-bearing payload the service embeds in it. -/
structure TokenPayload where
  id : Nat
  email : String
  authProvider : String
deriving DecidableEq, Repr

/-- The user summary returned by `userLoginService` alongside the token. -/
structure UserSummary where
  id : Nat
  email : String
  username : Option String
  authProvider : String
deriving DecidableEq, Repr

/-- `User.findOne({ email, authProvider: "local" })`: the first stored user
matching the email under the local provider. -/
def findLocalByEmail (store : List User) (email : String) : Option User :=
  store.find? (fun u => u.email == email && u.authProvider == "local")

/-- Embedding of `UserAuthServices.userLoginService`
(src/services/authServices/userAuthServices.ts, lines 90-125). `verify`
models `bcrypt.compare(password, hash)`, an external collaborator; the
stored hash defaults to "" when the document has no password
(`user.password ?? ""`). Unknown email: 401 with a not-found message; known
email but failed verification: 401 with an invalid-credentials message;
success: token payload plus user summary. -/
def userLoginService (verify : String → String → Bool) (store : List User)
    (email password : String) :
    Except CustomError (TokenPayload × UserSummary) :=
  match findLocalByEmail store email with
  | none => Except.error ⟨"User with this email not found for local auth", 401⟩
  | some user =>
    let isPasswordValid := verify password (user.password.getD "")
    if !isPasswordValid then
      Except.error ⟨"Invalid email or password", 401⟩
    else
      Except.ok (⟨user.id, user.email, user.authProvider⟩,
                 ⟨user.id, user.email, user.username, user.authProvider⟩)

/-- `User.findById` against the user store, as mongoose populate uses it to
resolve a referenced user id into a document. -/
def findUserById (users : List User) (id : Nat) : Option User :=
  users.find? (fun u => u.id == id)

/-- One collaborator entry of the board document returned by
getBoardService's query after `.populate` on the `collaborators.user`
path: `user` holds the referenced User document, or `none` (JS `null`)
when the reference does not resolve. -/
structure PopulatedCollaborator where
  user : Option User
  permission : String
deriving DecidableEq, Repr

/-- The populate step on the `collaborators.user` path: each stored user
id is replaced by the User document it refers to (null when the id is
missing from the store). -/
def populateCollaborators (users : List User) (b : Board) :
    List PopulatedCollaborator :=
  b.collaborators.map (fun c => ⟨findUserById users c.user, c.permission⟩)

/-- `collab.user.toString()` on a populated entry. A hydrated mongoose
Document prints as its util-inspect object literal — a brace-delimited
rendering of the selected fields — never as the bare id string that
`data.userId.toString()` yields. Calling `.toString()` on `null` (a
dangling reference) throws a TypeError, modelled as the error branch
carrying the TypeError message. -/
def populatedUserToString (popUser : Option User) : Except String String :=
  match popUser with
  | none => Except.error "Cannot read properties of null (reading toString)"
  | some doc =>
    Except.ok ("\x7b _id: new ObjectId(" ++ Nat.repr doc.id ++ "), username: "
      ++ doc.username.getD "undefined" ++ ", email: " ++ doc.email
      ++ ", authProvider: " ++ doc.authProvider ++ " \x7d")

/-- The `collaborators.some((collab) => collab.user.toString() ===
data.userId.toString())` computation of getBoardService: entries are
evaluated left to right, true at the first match, and a thrown TypeError
propagates out of `some`. -/
def someCollabMatches (userIdStr : String) :
    List PopulatedCollaborator → Except String Bool
  | [] => Except.ok false
  | collab :: rest =>
    match populatedUserToString collab.user with
    | Except.error e => Except.error e
    | Except.ok s =>
      if s == userIdStr then Except.ok true
      else someCollabMatches userIdStr rest

/-- Embedding of `BoardCRDServices.getBoardService`
(src/services/boardServices/cRDServices.ts, lines 219-268), with the
populate steps of its query included: `collaborators.user` and `createdBy`
are hydrated into User documents resolved against `users`. Missing board:
404. Public board: returned to anyone. Otherwise `isCollaborator` is
computed first, comparing each `collab.user.toString()` — the util-inspect
string of the populated document — with the id string
`data.userId.toString()`; then the owner check compares
`selBoard.createdBy._id.toString()` (the `._id` of the populated owner
document) with the same id string. A TypeError — `.toString()` on a
dangling collaborator reference, or `._id` on a dangling owner reference —
reaches the catch block, which wraps its message in a 500 CustomError.
The successful return is the board document (population is determined by
`users` and the stored board, so the stored record stands for it). -/
def getBoardService (users : List User) (selBoard : Option Board)
    (userId : Nat) : Except CustomError Board :=
  match selBoard with
  | none => Except.error ⟨"The requesdted board does not exist ", 404⟩
  | some b =>
    if b.security == "public" then
      Except.ok b
    else
      match someCollabMatches (Nat.repr userId) (populateCollaborators users b) with
      | Except.error e =>
        Except.error
          ⟨"The following error occurred while trying to get the specified board: " ++ e, 500⟩
      | Except.ok isCollaborator =>
        match findUserById users b.createdBy with
        | none =>
          Except.error
            ⟨"The following error occurred while trying to get the specified board: "
              ++ "Cannot read properties of null (reading _id)", 500⟩
        | some ownerDoc =>
          if Nat.repr ownerDoc.id == Nat.repr userId || isCollaborator then
            Except.ok b
          else
            Except.error ⟨"You do not have permission to view this", 403⟩

/-! Example fixtures used by witnesses and counterexamples. -/

/-- A public board owned by user 1 with no collaborators. -/
def exPublicBoard : Board := ⟨1, "pub", 1, [], [], "", "public"⟩

/-- A private board owned by user 1 whose sole collaborator is user 2. -/
def exPrivateBoard : Board := ⟨2, "prv", 1, [⟨2, "view"⟩], [], "", "private"⟩

/-- A private board owned by user 1 with no collaborators. -/
def exOwnerBoard : Board := ⟨3, "own", 1, [], [], "", "private"⟩

/-- A stored local user with email a@b.c. -/
def exUser : User := ⟨1, some "alice", "a@b.c", some "hash", "local", none, 0⟩

/-- A second stored user, the collaborator of the private board. -/
def exUser2 : User := ⟨2, some "bob", "b@b.c", some "hash2", "local", none, 0⟩

/-- The user store backing the populate step in the C1 evaluation:
both the owner (user 1) and the collaborator (user 2) resolve. -/
def exUserStore : List User := [exUser, exUser2]

/-- A password verifier that rejects every candidate, modelling
`bcrypt.compare` on a password that does not match the stored hash. -/
def neverVerify : String → String → Bool := fun _ _ => false

/-! Helper lemmas shared by the claim proofs. -/

theorem any_collab_eq_true_iff (b : Board) (u : Nat) :
    (b.collaborators.any fun collab => collab.user == u) = true ↔ u ∈ collabUsers b := by
  rw [List.any_eq_true]
  unfold collabUsers
  rw [List.mem_map]
  constructor
  · rintro ⟨c, hc, hbeq⟩
    exact ⟨c, hc, beq_iff_eq.mp hbeq⟩
  · rintro ⟨c, hc, heq⟩
    exact ⟨c, hc, beq_iff_eq.mpr heq⟩

theorem checkIfowner_false (b : Board) (u : Nat) (h : u ≠ b.createdBy) :
    checkIfowner b u = false := by
  unfold checkIfowner
  exact beq_eq_false_iff_ne.mpr (Ne.symm h)

theorem checkIfowner_self (b : Board) : checkIfowner b b.createdBy = true := by
  unfold checkIfowner
  exact beq_self_eq_true b.createdBy

theorem any_collab_eq_false (b : Board) (u : Nat) (h : u ∉ collabUsers b) :
    (b.collaborators.any fun collab => collab.user == u) = false := by
  rw [Bool.eq_false_iff]
  intro hc
  exact h ((any_collab_eq_true_iff b u).mp hc)

theorem findIdx_none_of_not_collab (b : Board) (x : Nat) (hx : x ∉ collabUsers b) :
    b.collaborators.findIdx? (fun collab => collab.user == x) = none := by
  rw [List.findIdx?_eq_none_iff]
  intro c hc
  rw [beq_eq_false_iff_ne]
  intro hcx
  exact hx (List.mem_map.mpr ⟨c, hc, hcx⟩)

/-- C1 (code evaluated at the failing input): on the private board owned
by user 1 with collaborator 2, both users resolvable in the store, the
populated collaborator check compares the util-inspect string of user 2's
document with the id string, which never match, so collaborator 2 is
refused with 403 — against the claim. The 404-before-permission check,
the public-board path and the owner path (whose comparison goes through
the populated document's `._id`) behave as the claim states; a dangling
collaborator reference turns the read into a 500, even for the owner. -/
theorem c1_collaborator_denied :
    getBoardService exUserStore (some exPrivateBoard) 2
      = Except.error ⟨"You do not have permission to view this", 403⟩
    ∧ getBoardService exUserStore (some exPrivateBoard) 1 = Except.ok exPrivateBoard
    ∧ getBoardService exUserStore (some exPublicBoard) 42 = Except.ok exPublicBoard
    ∧ getBoardService exUserStore none 2
      = Except.error ⟨"The requesdted board does not exist ", 404⟩
    ∧ statusOf (getBoardService [exUser] (some exPrivateBoard) 1) = some 500 := by
  decide

/-- C5: any acting user other than the owner gets 403 from both
addCollaboratorService and deleteCollaboratorService (whatever the target
and permission, so also a collaborator holding "edit"), and the stored
board is unchanged. -/
theorem c5_nonowner_forbidden (b : Board) (u t : Nat) (p : String)
    (h : u ≠ b.createdBy) :
    addCollaboratorService (some b) u t p
      = Except.error ⟨"Only owner can add new collaborators !", 403⟩
    ∧ deleteCollaboratorService (some b) u t
      = Except.error ⟨"Only owner can add remove collaborators !", 403⟩
    ∧ boardAfterAdd b u t p = b
    ∧ boardAfterDelete b u t = b := by
  have hown := checkIfowner_false b u h
  refine ⟨?_, ?_, ?_, ?_⟩ <;>
    simp [addCollaboratorService, deleteCollaboratorService,
      boardAfterAdd, boardAfterDelete, hown]

/-- C5 witness: user 2, a collaborator of the private board but not its
owner, is refused by both mutations and the board is untouched. -/
theorem c5_witness :
    addCollaboratorService (some exPrivateBoard) 2 3 "edit"
      = Except.error ⟨"Only owner can add new collaborators !", 403⟩
    ∧ deleteCollaboratorService (some exPrivateBoard) 2 3
      = Except.error ⟨"Only owner can add remove collaborators !", 403⟩
    ∧ boardAfterAdd exPrivateBoard 2 3 "edit" = exPrivateBoard
    ∧ boardAfterDelete exPrivateBoard 2 3 = exPrivateBoard :=
  c5_nonowner_forbidden exPrivateBoard 2 3 "edit" (by decide)

/-- C2 counterexample: the owner of a board with no collaborators adds
themself: the call does not fail with BadRequest, it succeeds and appends
the owner to the collaborator list. -/
theorem c2_counterexample :
    addCollaboratorService (some exOwnerBoard) 1 1 "edit"
      = Except.ok { exOwnerBoard with collaborators := [⟨1, "edit"⟩] }
    ∧ statusOf (addCollaboratorService (some exOwnerBoard) 1 1 "edit") ≠ some 400 := by
  decide

/-- C2 amended: addCollaboratorService has no targetUserId == createdBy
check; whenever the owner is not already listed, adding the owner to their
own board succeeds and appends the owner to the collaborator list. -/
theorem c2_owner_self_add (b : Board) (p : String)
    (h : b.createdBy ∉ collabUsers b) :
    addCollaboratorService (some b) b.createdBy b.createdBy p
      = Except.ok { b with collaborators := b.collaborators ++ [⟨b.createdBy, p⟩] } := by
  have hany := any_collab_eq_false b b.createdBy h
  simp [addCollaboratorService, checkIfowner_self, hany]

/-- C2 witness: owner 1 of the collaborator-free private board adds
themself with permission "view" and the call succeeds. -/
theorem c2_witness :
    addCollaboratorService (some exOwnerBoard) 1 1 "view"
      = Except.ok { exOwnerBoard with collaborators := [⟨1, "view"⟩] } :=
  c2_owner_self_add exOwnerBoard "view" (by decide)

/-- C3 counterexample: adding the already-present collaborator 2 fails
with status 400, which is not the Conflict status 409 of the repository's
own error taxonomy. -/
theorem c3_counterexample :
    statusOf (addCollaboratorService (some exPrivateBoard) 1 2 "view") = some 400
    ∧ some 400 ≠ some conflictStatusCode := by
  decide

/-- C3 amended: adding a user already present in collaborators fails with
a status-400 error (message "This user is already a collaborator"), not
409, and the stored board — in particular its collaborator list and that
list's length — is unchanged by the failed call. -/
theorem c3_duplicate_add (b : Board) (x : Nat) (p : String)
    (hx : x ∈ collabUsers b) :
    addCollaboratorService (some b) b.createdBy x p
      = Except.error ⟨"This user is already a collaborator", 400⟩
    ∧ boardAfterAdd b b.createdBy x p = b := by
  have hany := (any_collab_eq_true_iff b x).mpr hx
  constructor <;>
    simp [addCollaboratorService, boardAfterAdd, checkIfowner_self, hany]

/-- C3 witness: re-adding collaborator 2 with permission "edit" fails with
status 400 and leaves the board as it was. -/
theorem c3_witness :
    addCollaboratorService (some exPrivateBoard) 1 2 "edit"
      = Except.error ⟨"This user is already a collaborator", 400⟩
    ∧ boardAfterAdd exPrivateBoard 1 2 "edit" = exPrivateBoard :=
  c3_duplicate_add exPrivateBoard 2 "edit" (by decide)

/-- C7: removing a user who is not a collaborator fails with a 404 error
and the stored board is unchanged. -/
theorem c7_remove_nonmember (b : Board) (x : Nat) (hx : x ∉ collabUsers b) :
    deleteCollaboratorService (some b) b.createdBy x
      = Except.error ⟨"User is not a collaborator", 404⟩
    ∧ boardAfterDelete b b.createdBy x = b := by
  have hidx := findIdx_none_of_not_collab b x hx
  constructor <;>
    simp [deleteCollaboratorService, boardAfterDelete, checkIfowner_self, hidx]

/-- C7 witness: removing the stranger 7 from the private board fails with
404 and the board is untouched. -/
theorem c7_witness :
    deleteCollaboratorService (some exPrivateBoard) 1 7
      = Except.error ⟨"User is not a collaborator", 404⟩
    ∧ boardAfterDelete exPrivateBoard 1 7 = exPrivateBoard :=
  c7_remove_nonmember exPrivateBoard 7 (by decide)

/-- C6: for a user x not yet a collaborator, the owner adding x appends x
at the end of the collaborator list (preserving the existing entries and
their order), and the owner then removing x deletes exactly that first
matching entry, restoring the board to its pre-add state. -/
theorem c6_add_remove_roundtrip (b : Board) (x : Nat) (p : String)
    (hx : x ∉ collabUsers b) :
    addCollaboratorService (some b) b.createdBy x p
      = Except.ok { b with collaborators := b.collaborators ++ [⟨x, p⟩] }
    ∧ deleteCollaboratorService
        (some { b with collaborators := b.collaborators ++ [⟨x, p⟩] }) b.createdBy x
      = Except.ok b := by
  have hany := any_collab_eq_false b x hx
  constructor
  · simp [addCollaboratorService, checkIfowner_self, hany]
  · have hnone : b.collaborators.findIdx? (fun collab => collab.user == x) = none :=
      findIdx_none_of_not_collab b x hx
    have hidx : (b.collaborators ++ [(⟨x, p⟩ : Collaborator)]).findIdx?
        (fun collab => collab.user == x) = some b.collaborators.length := by
      rw [List.findIdx?_append, hnone]
      simp
    have herase : (b.collaborators ++ [(⟨x, p⟩ : Collaborator)]).eraseIdx
        b.collaborators.length = b.collaborators := by
      rw [List.eraseIdx_append_of_length_le (Nat.le_refl _)]
      simp
    have hown : checkIfowner { b with collaborators := b.collaborators ++ [⟨x, p⟩] }
        b.createdBy = true := checkIfowner_self _
    simp [deleteCollaboratorService, hown, hidx, herase]

/-- C6 witness: on the private board, owner 1 adds the fresh user 5 with
"edit", then removes user 5, and the board returns to its original value. -/
theorem c6_witness :
    addCollaboratorService (some exPrivateBoard) 1 5 "edit"
      = Except.ok { exPrivateBoard with
          collaborators := exPrivateBoard.collaborators ++ [⟨5, "edit"⟩] }
    ∧ deleteCollaboratorService
        (some { exPrivateBoard with
          collaborators := exPrivateBoard.collaborators ++ [⟨5, "edit"⟩] }) 1 5
      = Except.ok exPrivateBoard :=
  c6_add_remove_roundtrip exPrivateBoard 5 "edit" (by decide)

/-- The first board named Roadmap created by owner 1. -/
def roadmapBoard : Board := ⟨10, "Roadmap", 1, [], [], "", "private"⟩

/-- A second board with the same owner and the same name, stored under a
fresh id. -/
def roadmapBoard2 : Board := ⟨11, "Roadmap", 1, [], [], "", "private"⟩

/-- C4: the final BoardSchema declares no unique index on
(createdBy, name), so owner 1 creating a second board named Roadmap (under
a fresh store-assigned id) succeeds instead of failing with Conflict; and
even when the store does report a duplicate key (an `_id` collision, the
only unique index), the service throws status 400, not the Conflict
status 409 of the repository's own error taxonomy. -/
theorem c4_duplicate_name_create_succeeds :
    createBoardService [] 10 "Roadmap" "private" 1 none
      = Except.ok ([roadmapBoard], roadmapBoard)
    ∧ createBoardService [roadmapBoard] 11 "Roadmap" "private" 1 none
      = Except.ok ([roadmapBoard, roadmapBoard2], roadmapBoard2)
    ∧ statusOf (createBoardService [roadmapBoard] 10 "Roadmap" "private" 1 none)
      = some 400
    ∧ (400 : Nat) ≠ conflictStatusCode := by
  decide

/-- A board created with an unvalidated initial collaborator list that
contains the owner and a duplicated user. -/
def badBoard : Board :=
  ⟨20, "bad", 1, [⟨1, "edit"⟩, ⟨2, "view"⟩, ⟨2, "view"⟩], [], "", "private"⟩

/-- C8 counterexample: createBoardService copies the caller-supplied
initial collaborator list without validation, so one create call produces
a board violating both collaborator-list invariants: the owner is listed
as a collaborator and user 2 appears twice. -/
theorem c8_counterexample :
    createBoardService [] 20 "bad" "private" 1
        (some [⟨1, "edit"⟩, ⟨2, "view"⟩, ⟨2, "view"⟩])
      = Except.ok ([badBoard], badBoard)
    ∧ ¬ ownerNotCollaborator badBoard
    ∧ ¬ noDuplicateCollaborators badBoard := by
  decide

theorem boardAfterAdd_nodup (b : Board) (cu tu : Nat) (p : String)
    (h : noDuplicateCollaborators b) :
    noDuplicateCollaborators (boardAfterAdd b cu tu p) := by
  unfold boardAfterAdd addCollaboratorService
  cases hown : checkIfowner b cu with
  | false => simpa [hown] using h
  | true =>
    cases hex : b.collaborators.any (fun collab => collab.user == tu) with
    | true => simpa [hown, hex] using h
    | false =>
      have htu : tu ∉ collabUsers b := fun hm => by
        rw [← any_collab_eq_true_iff] at hm
        rw [hex] at hm
        exact Bool.false_ne_true hm
      simp only [hown, hex, Bool.not_true, Bool.false_eq_true, if_false, if_true,
        Bool.not_false]
      unfold noDuplicateCollaborators collabUsers at h ⊢
      rw [List.map_append, List.nodup_append]
      refine ⟨h, List.nodup_singleton _, ?_⟩
      intro a ha hb
      have : a = tu := by simpa using hb
      subst this
      exact htu ha

theorem boardAfterDelete_nodup (b : Board) (cu tu : Nat)
    (h : noDuplicateCollaborators b) :
    noDuplicateCollaborators (boardAfterDelete b cu tu) := by
  unfold boardAfterDelete deleteCollaboratorService
  cases hown : checkIfowner b cu with
  | false => simpa [hown] using h
  | true =>
    cases hidx : b.collaborators.findIdx? (fun collab => collab.user == tu) with
    | none => simpa [hown, hidx] using h
    | some i =>
      simp only [hown, hidx, Bool.not_true, Bool.false_eq_true, if_false]
      unfold noDuplicateCollaborators collabUsers at h ⊢
      exact h.sublist ((List.eraseIdx_sublist b.collaborators i).map _)

/-- C8 amended: the at-most-once invariant is preserved by every sequence
of addCollaboratorService / deleteCollaboratorService calls (a duplicate
add is rejected before the push, and a removal only shortens the list);
but the invariants do not hold for every board the operations can produce,
because createBoardService stores the caller's initial collaborator list
unvalidated and addCollaboratorService never prevents adding the owner. -/
theorem c8_nodup_preserved (b : Board) (ops : List BoardOp)
    (h : noDuplicateCollaborators b) :
    noDuplicateCollaborators (applyOps b ops) := by
  induction ops generalizing b with
  | nil => exact h
  | cons op ops ih =>
    cases op with
    | add cu tu p => exact ih _ (boardAfterAdd_nodup b cu tu p h)
    | remove cu tu => exact ih _ (boardAfterDelete_nodup b cu tu h)

/-- C8 witness: starting from the private board (collaborators [2]), an
add of user 3 followed by a removal of user 2 keeps the collaborator list
duplicate-free. -/
theorem c8_witness :
    noDuplicateCollaborators
      (applyOps exPrivateBoard [BoardOp.add 1 3 "edit", BoardOp.remove 1 2]) :=
  c8_nodup_preserved exPrivateBoard [BoardOp.add 1 3 "edit", BoardOp.remove 1 2]
    (by decide)

/-- C9 counterexample: with a verifier that rejects the password, logging
in with the stored email a@b.c and with the unknown email x@y.z both fail,
but the observable failure results differ (the error messages are
"Invalid email or password" versus "User with this email not found for
local auth"), so a failed login does reveal whether the email exists. -/
theorem c9_counterexample :
    userLoginService neverVerify [exUser] "a@b.c" "pw"
      ≠ userLoginService neverVerify [exUser] "x@y.z" "pw" := by
  decide

/-- C9 amended: both failure modes of userLoginService carry status 401 —
an unknown email yields the error "User with this email not found for
local auth" and a known email with a failing password check yields
"Invalid email or password" — but the two observable results are distinct,
so the failure reveals whether a local account with the email exists. -/
theorem c9_login_unauthorized (verify : String → String → Bool)
    (store : List User) (e pw : String) :
    (findLocalByEmail store e = none →
      userLoginService verify store e pw
        = Except.error ⟨"User with this email not found for local auth", 401⟩)
    ∧ (∀ u, findLocalByEmail store e = some u →
        verify pw (u.password.getD "") = false →
        userLoginService verify store e pw
          = Except.error ⟨"Invalid email or password", 401⟩) := by
  constructor
  · intro h
    simp [userLoginService, h]
  · intro u hu hv
    simp [userLoginService, hu, hv]

/-- C9 witness: with the rejecting verifier, the unknown email x@y.z and
the stored email a@b.c both produce a 401 error, with their respective
messages. -/
theorem c9_witness :
    userLoginService neverVerify [exUser] "x@y.z" "pw"
      = Except.error ⟨"User with this email not found for local auth", 401⟩
    ∧ userLoginService neverVerify [exUser] "a@b.c" "pw"
      = Except.error ⟨"Invalid email or password", 401⟩ :=
  ⟨(c9_login_unauthorized neverVerify [exUser] "x@y.z" "pw").1 (by decide),
   (c9_login_unauthorized neverVerify [exUser] "a@b.c" "pw").2 exUser
     (by decide) (by decide)⟩

/-- C10: the JSON serialization of a User document drops the password hash
and the __v version key, so two users differing only in those fields
serialize to the identical UserJSON value. -/
theorem c10_toJSON_hides_password (u : User) (p : Option String) (n : Nat) :
    User.toJSON { u with password := p, v := n } = User.toJSON u := rfl

end SyncBackend
